import Mathlib

/-!
Shallow embedding of the Kdag-K/babble core, following the repository sources
(`src/config/config.go`, the `proxy.AppGateway` interface declaration) and, for
components whose implementation is not part of the excerpt, models written from
the specification (each such definition is marked `Modelled from the spec:`).

File paths are embedded as lists of path components, so that `filepath.Join`
becomes list append; byte strings are lists of naturals.
-/

namespace Kdag

/-- Opaque byte strings (transactions, hashes) are modelled as lists of bytes. -/
abbrev Bytes := List Nat

/-- A file path, as its list of components; `filepath.Join` is list append. -/
abbrev GoPath := List String

/-- Canonical encoding of a string as bytes. -/
def encodeString (s : String) : List Nat :=
  s.data.map Char.toNat

/-- Canonical encoding of a list, separating the encoded elements. -/
def encodeListWith (enc : α → List Nat) (l : List α) : List Nat :=
  l.foldl (fun acc x => acc ++ [0] ++ enc x) []

/-- Digest model: fold a canonical encoding into a single natural number. -/
def mixHash (l : List Nat) : Nat :=
  l.foldl (fun acc x => acc * 131 + x + 1) 17

/-! ### Cryptographic keys (package `crypto/keys`)

Only the package documentation of `crypto/keys` is part of the excerpt, so the
key and signature operations are modelled from the spec. -/

/-- Elliptic curves a key can live on; the repository only ever uses
secp256k1, but the type records the curve so that this is a statement. -/
inductive Curve where
  | secp256k1 : Curve
  | p256 : Curve
deriving DecidableEq

/-- An ECDSA private key: a curve and a secret scalar. -/
structure PrivateKey where
  curve : Curve
  d : Nat
deriving DecidableEq

/-- An ECDSA public key: a curve and (an abstract encoding of) a point. -/
structure PublicKey where
  curve : Curve
  point : Nat
deriving DecidableEq

/-- Modelled from the spec: derivation of the public point from the secret
scalar (abstract model of scalar-base multiplication). -/
def scalarBaseMult (d : Nat) : Nat := d

/-- The public key corresponding to a private key. -/
def PublicKeyOf (k : PrivateKey) : PublicKey :=
  { curve := k.curve, point := scalarBaseMult k.d }

/-- Modelled from the spec: `keys.GenerateECDSAKey` produces a fresh ECDSA
private key on the secp256k1 curve (the key-generation code is not in the
excerpt; only the `keys` package documentation is). Randomness is an explicit
argument. -/
def GenerateECDSAKey (rand : Nat) : Except String PrivateKey :=
  Except.ok { curve := Curve.secp256k1, d := rand }

/-- Hexadecimal rendering of a natural number. -/
def natToHex (n : Nat) : String :=
  String.mk (Nat.toDigits 16 n)

/-- Modelled from the spec: a peer's identity is the hex encoding of its
public key (`keys.PublicKeyHex`). -/
def PublicKeyHex (p : PublicKey) : String :=
  natToHex p.point

/-- An ECDSA signature, in the idealized signature model: it determines the
signer's public point and the signed hash. -/
structure Signature where
  signerPoint : Nat
  message : Nat
deriving DecidableEq

/-- Modelled from the spec: signing a hash with a private key. -/
def signHash (k : PrivateKey) (h : Nat) : Signature :=
  { signerPoint := scalarBaseMult k.d, message := h }

/-- Modelled from the spec: verifying a signature on a hash against a public
key (idealized: the signature is valid iff it was produced over this hash by
the holder of this public key). -/
def verifyHash (p : PublicKey) (h : Nat) (s : Signature) : Bool :=
  s.signerPoint == p.point && s.message == h

/-! ### Peers and internal transactions (package `peers`, `hashgraph`) -/

/-- A peer: network address, hex public key and friendly name. -/
structure Peer where
  NetAddr : String
  PubKeyHex : String
  Moniker : String
deriving DecidableEq

/-- Construct a peer (argument order as in `peers.NewPeer(pubKeyHex, netAddr,
moniker)`). -/
def NewPeer (pubKeyHex netAddr moniker : String) : Peer :=
  { NetAddr := netAddr, PubKeyHex := pubKeyHex, Moniker := moniker }

/-- The type of an internal transaction: peer membership change. -/
inductive TransactionType where
  | PEER_ADD : TransactionType
  | PEER_REMOVE : TransactionType
deriving DecidableEq

/-- An internal transaction carries a type and a target peer. -/
structure InternalTransaction where
  TxType : TransactionType
  TxPeer : Peer
deriving DecidableEq

/-- Construct an internal transaction. -/
def NewInternalTransaction (t : TransactionType) (p : Peer) : InternalTransaction :=
  { TxType := t, TxPeer := p }

/-- A receipt: the internal transaction plus the application's acceptance
decision. -/
structure InternalTransactionReceipt where
  Tx : InternalTransaction
  Accepted : Bool
deriving DecidableEq

/-- The accepted receipt for an internal transaction. -/
def InternalTransaction.AsAccepted (itx : InternalTransaction) : InternalTransactionReceipt :=
  { Tx := itx, Accepted := true }

/-! ### Blocks (package `hashgraph`)

The block implementation is not in the excerpt (only `block_test.go` is), so
the block body, signing and the signature map are modelled from the spec:
a block is {index, round-received, state-hash, frame-hash, peer-set,
transactions, internal-transactions, receipts} plus a map from public key to
an ECDSA signature over the block body hash. -/

/-- The body of a block. -/
structure BlockBody where
  Index : Nat
  RoundReceived : Nat
  StateHash : Bytes
  FrameHash : Bytes
  Peers : List Peer
  Transactions : List Bytes
  InternalTransactions : List InternalTransaction
  InternalTransactionReceipts : List InternalTransactionReceipt
  Timestamp : Int
deriving DecidableEq

/-- Canonical encoding of a peer. -/
def encodePeer (p : Peer) : List Nat :=
  encodeString p.NetAddr ++ [1] ++ encodeString p.PubKeyHex ++ [1] ++ encodeString p.Moniker

/-- Canonical encoding of an internal transaction. -/
def encodeInternalTransaction (itx : InternalTransaction) : List Nat :=
  (match itx.TxType with
   | TransactionType.PEER_ADD => [0]
   | TransactionType.PEER_REMOVE => [1]) ++ encodePeer itx.TxPeer

/-- Canonical encoding of a receipt. -/
def encodeReceipt (r : InternalTransactionReceipt) : List Nat :=
  encodeInternalTransaction r.Tx ++ [if r.Accepted then 1 else 0]

/-- Canonical encoding of a block body. -/
def encodeBody (b : BlockBody) : List Nat :=
  [b.Index, b.RoundReceived] ++ b.StateHash ++ [2] ++ b.FrameHash ++ [2]
    ++ encodeListWith encodePeer b.Peers
    ++ encodeListWith id b.Transactions
    ++ encodeListWith encodeInternalTransaction b.InternalTransactions
    ++ encodeListWith encodeReceipt b.InternalTransactionReceipts
    ++ [b.Timestamp.toNat]

/-- Modelled from the spec: the cryptographic digest of a block body (the
hash block signatures are computed over). -/
def hashOfBody (b : BlockBody) : Nat :=
  mixHash (encodeBody b)

/-- A block signature: the validator's public key, the block index, and the
ECDSA signature. -/
structure BlockSignature where
  Validator : PublicKey
  Index : Nat
  Sig : Signature
deriving DecidableEq

/-- The hex identity of the signing validator. -/
def BlockSignature.ValidatorHex (bs : BlockSignature) : String :=
  PublicKeyHex bs.Validator

/-- A block: a body plus the accumulated signatures, a map from validator hex
public key to signature. -/
structure Block where
  Body : BlockBody
  Signatures : List (String × BlockSignature)
deriving DecidableEq

/-- Construct a block (as `hashgraph.NewBlock`). -/
def NewBlock (blockIndex roundReceived : Nat) (frameHash : Bytes) (peerList : List Peer)
    (txs : List Bytes) (itxs : List InternalTransaction) (timestamp : Int) : Block :=
  { Body :=
      { Index := blockIndex
        RoundReceived := roundReceived
        StateHash := []
        FrameHash := frameHash
        Peers := peerList
        Transactions := txs
        InternalTransactions := itxs
        InternalTransactionReceipts := []
        Timestamp := timestamp }
    Signatures := [] }

/-- The internal transactions of a block. -/
def Block.InternalTransactions (b : Block) : List InternalTransaction :=
  b.Body.InternalTransactions

/-- Modelled from the spec: `Block.Sign` signs the block body hash with the
validator's private key. -/
def Block.Sign (b : Block) (k : PrivateKey) : Except String BlockSignature :=
  Except.ok
    { Validator := PublicKeyOf k
      Index := b.Body.Index
      Sig := signHash k (hashOfBody b.Body) }

/-- Modelled from the spec: `Block.Verify` checks a block signature over this
block's body hash against the signature's validator public key. -/
def Block.Verify (b : Block) (bs : BlockSignature) : Except String Bool :=
  Except.ok (verifyHash bs.Validator (hashOfBody b.Body) bs.Sig)

/-- Modelled from the spec: `Block.SetSignature` records a signature in the
block's signature map, keyed by the validator's hex public key. -/
def Block.SetSignature (b : Block) (bs : BlockSignature) : Except String Block :=
  Except.ok
    { b with
        Signatures :=
          (bs.ValidatorHex, bs) :: b.Signatures.filter (fun kv => kv.1 ≠ bs.ValidatorHex) }

/-- Modelled from the spec: `Block.GetSignature` looks up the signature of a
given validator (by hex public key), erroring when absent. -/
def Block.GetSignature (b : Block) (validatorHex : String) : Except String BlockSignature :=
  match b.Signatures.find? (fun kv => kv.1 == validatorHex) with
  | some kv => Except.ok kv.2
  | none => Except.error "signature not found"

/-! ### Events and frames (package `hashgraph`) -/

/-- The body of an event, per the spec data model: transactions, internal
transactions, parent hashes, creator and creator-local index. -/
structure EventBody where
  Transactions : List Bytes
  InternalTransactions : List InternalTransaction
  Parents : List Bytes
  Creator : Bytes
  Index : Int
deriving DecidableEq

/-- An event: a body plus the creator's signature. -/
structure Event where
  Body : EventBody
  CreatorSig : Signature
deriving DecidableEq

/-- A frame event: a core event together with its consensus coordinates. -/
structure FrameEvent where
  Core : Event
  Round : Nat
  LamportTimestamp : Int
deriving DecidableEq

/-- A frame: the self-contained snapshot of a decided round. Roots are kept
as a map from creator to the resumption hash. -/
structure Frame where
  Round : Nat
  Peers : List Peer
  Roots : List (String × Bytes)
  Events : List FrameEvent
  Timestamp : Int
deriving DecidableEq

/-- Canonical encoding of an event body. -/
def encodeEventBody (e : EventBody) : List Nat :=
  encodeListWith id e.Transactions
    ++ encodeListWith encodeInternalTransaction e.InternalTransactions
    ++ encodeListWith id e.Parents
    ++ [3] ++ e.Creator ++ [3, e.Index.toNat]

/-- Canonical encoding of a frame event. -/
def encodeFrameEvent (fe : FrameEvent) : List Nat :=
  encodeEventBody fe.Core.Body ++ [fe.Core.CreatorSig.signerPoint, fe.Core.CreatorSig.message]
    ++ [fe.Round, fe.LamportTimestamp.toNat]

/-- Canonical encoding of a frame. -/
def encodeFrame (f : Frame) : List Nat :=
  [f.Round] ++ encodeListWith encodePeer f.Peers
    ++ encodeListWith (fun kv => encodeString kv.1 ++ [4] ++ kv.2) f.Roots
    ++ encodeListWith encodeFrameEvent f.Events
    ++ [f.Timestamp.toNat]

/-- Modelled from the spec: the canonical digest of a frame (`Frame.Hash`). -/
def hashOfFrame (f : Frame) : Bytes :=
  [mixHash (encodeFrame f)]

/-- Transactions of a frame, flattened in frame-event order, accumulated the
way the construction loop appends them. -/
def frameTransactions (events : List FrameEvent) : List Bytes :=
  events.foldl (fun acc e => acc ++ e.Core.Body.Transactions) []

/-- Internal transactions of a frame, flattened in frame-event order. -/
def frameInternalTransactions (events : List FrameEvent) : List InternalTransaction :=
  events.foldl (fun acc e => acc ++ e.Core.Body.InternalTransactions) []

/-- Modelled from the spec: `hashgraph.NewBlockFromFrame` constructs the block
of a decided round from the frame's flattened transactions and internal
transactions (the implementation is not in the excerpt; only its test is). -/
def NewBlockFromFrame (blockIndex : Nat) (frame : Frame) : Except String Block :=
  Except.ok
    (NewBlock blockIndex frame.Round (hashOfFrame frame) frame.Peers
      (frameTransactions frame.Events) (frameInternalTransactions frame.Events)
      frame.Timestamp)

/-! ### Node states and the application gateway (packages `node/state`,
`proxy`) -/

/-- The states of the node state machine (package `node/state`). -/
inductive NodeState where
  | Babbling : NodeState
  | CatchingUp : NodeState
  | Joining : NodeState
  | Leaving : NodeState
  | Suspended : NodeState
  | Shutdown : NodeState
deriving DecidableEq

/-- Modelled from the spec: the response of `commit-block` — the
post-execution state-hash and the acceptance decisions for internal
transactions. -/
structure CommitResponse where
  StateHash : Bytes
  InternalTransactionReceipts : List InternalTransactionReceipt
deriving DecidableEq

/-- The application gateway consumed by the core (`proxy.AppGateway`): a
submit channel of opaque transactions, block commitment, snapshot transfer in
both directions, and state-change notification. -/
structure AppGateway where
  SubmitCh : List Bytes
  CommitBlock : Block → Except String CommitResponse
  GetSnapshot : Nat → Except String Bytes
  Restore : Bytes → Except String Unit
  OnStateChanged : NodeState → Except String Unit

/-! ### Configuration (package `config`) -/

/-- Default name of the private-key file. -/
def DefaultKeyfile : String := "priv_key"

/-- Default name of the folder containing the Badger database. -/
def DefaultBadgerFile : String := "badger_db"

/-- Default name of the self-signed certificate file. -/
def DefaultCertFile : String := "cert.pem"

/-- One millisecond, in nanoseconds (`time.Millisecond`). -/
def Millisecond : Nat := 1000000

/-- Default log level. -/
def DefaultLogLevel : String := "debug"

/-- Default gossip bind address. -/
def DefaultBindAddr : String := "127.0.0.1:1337"

/-- Default API service address. -/
def DefaultServiceAddr : String := "127.0.0.1:8000"

/-- Default fast gossip timer period. -/
def DefaultHeartbeatTimeout : Nat := 10 * Millisecond

/-- Default idle gossip timer period. -/
def DefaultSlowHeartbeatTimeout : Nat := 1000 * Millisecond

/-- Default TCP timeout. -/
def DefaultTCPTimeout : Nat := 1000 * Millisecond

/-- Default join-request timeout. -/
def DefaultJoinTimeout : Nat := 10000 * Millisecond

/-- Default in-memory cache capacity. -/
def DefaultCacheSize : Nat := 10000

/-- Default max number of events per sync response. -/
def DefaultSyncLimit : Nat := 1000

/-- Default number of pooled connections per target. -/
def DefaultMaxPool : Nat := 2

/-- Default persistent-storage flag. -/
def DefaultStore : Bool := false

/-- Default maintenance-mode flag. -/
def DefaultMaintenanceMode : Bool := false

/-- Default undecided-event threshold for auto-suspend. -/
def DefaultSuspendLimit : Nat := 100

/-- Default WebRTC flag. -/
def DefaultWebRTC : Bool := false

/-- Default WebRTC signaling server address. -/
def DefaultSignalAddr : String := "127.0.0.1:2443"

/-- Default WebRTC signaling realm. -/
def DefaultSignalRealm : String := "office"

/-- Default certificate-verification skipping flag for the signal client. -/
def DefaultSignalSkipVerify : Bool := false

/-- An ICE server description (STUN/TURN). -/
structure ICEServer where
  URLs : List String
deriving DecidableEq

/-- The default ICE server list: a single public STUN server. -/
def DefaultICEServers : List ICEServer :=
  [{ URLs := ["stun:stun.l.google.com:19302"] }]

/-- The operating system, as `runtime.GOOS` distinguishes it. -/
inductive GOOS where
  | darwin : GOOS
  | windows : GOOS
  | linux : GOOS
deriving DecidableEq

/-- The ambient OS environment consulted by the default-directory helpers:
the `HOME` environment variable, the current user's home directory, and the
operating system. -/
structure OSEnv where
  homeEnv : GoPath
  userHomeDir : Option GoPath
  goos : GOOS

/-- The user's home directory (`config.HomeDir`): the `HOME` environment
variable if set, else the current user's home directory, else empty. -/
def HomeDir (env : OSEnv) : GoPath :=
  if env.homeEnv ≠ [] then env.homeEnv
  else
    match env.userHomeDir with
    | some usr => usr
    | none => []

/-- The default top-level data directory (`config.DefaultDataDir`), placed in
the user's home directory following OS conventions. -/
def DefaultDataDir (env : OSEnv) : GoPath :=
  let home := HomeDir env
  if home ≠ [] then
    match env.goos with
    | GOOS.darwin => home ++ [".Kdag"]
    | GOOS.windows => home ++ ["AppData", "Roaming", "Kdag"]
    | GOOS.linux => home ++ [".kdag"]
  else []

/-- The default path for the badger database files
(`config.DefaultDatabaseDir`). -/
def DefaultDatabaseDir (env : OSEnv) : GoPath :=
  DefaultDataDir env ++ [DefaultBadgerFile]

/-- The configuration of a Kdag node (`config.Config`), field for field. -/
structure Config where
  DataDir : GoPath
  LogLevel : String
  BindAddr : String
  AdvertiseAddr : String
  NoService : Bool
  ServiceAddr : String
  HeartbeatTimeout : Nat
  SlowHeartbeatTimeout : Nat
  MaxPool : Nat
  TCPTimeout : Nat
  JoinTimeout : Nat
  SyncLimit : Nat
  EnableFastSync : Bool
  Store : Bool
  DatabaseDir : GoPath
  CacheSize : Nat
  Bootstrap : Bool
  MaintenanceMode : Bool
  SuspendLimit : Nat
  Moniker : String
  WebRTC : Bool
  SignalAddr : String
  SignalRealm : String
  SignalSkipVerify : Bool
  ICEServers : List ICEServer
  Proxy : Option AppGateway
  Key : Option PrivateKey
  logger : Option Nat

/-- The default configuration (`config.NewDefaultConfig`); fields the Go
constructor leaves unset take Go's zero values. -/
def NewDefaultConfig (env : OSEnv) : Config :=
  { DataDir := DefaultDataDir env
    LogLevel := DefaultLogLevel
    BindAddr := DefaultBindAddr
    AdvertiseAddr := ""
    NoService := false
    ServiceAddr := DefaultServiceAddr
    HeartbeatTimeout := DefaultHeartbeatTimeout
    SlowHeartbeatTimeout := DefaultSlowHeartbeatTimeout
    MaxPool := DefaultMaxPool
    TCPTimeout := DefaultTCPTimeout
    JoinTimeout := DefaultJoinTimeout
    SyncLimit := DefaultSyncLimit
    EnableFastSync := false
    Store := DefaultStore
    DatabaseDir := DefaultDatabaseDir env
    CacheSize := DefaultCacheSize
    Bootstrap := false
    MaintenanceMode := DefaultMaintenanceMode
    SuspendLimit := DefaultSuspendLimit
    Moniker := ""
    WebRTC := DefaultWebRTC
    SignalAddr := DefaultSignalAddr
    SignalRealm := DefaultSignalRealm
    SignalSkipVerify := DefaultSignalSkipVerify
    ICEServers := DefaultICEServers
    Proxy := none
    Key := none
    logger := none }

/-- `Config.SetDataDir`: set the top-level data directory, and update the
database directory only when it currently holds the default value. -/
def Config.SetDataDir (c : Config) (env : OSEnv) (dataDir : GoPath) : Config :=
  let c1 := { c with DataDir := dataDir }
  if c1.DatabaseDir = DefaultDatabaseDir env then
    { c1 with DatabaseDir := dataDir ++ [DefaultBadgerFile] }
  else c1

/-- `Config.Keyfile`: the full path of the private-key file. -/
def Config.Keyfile (c : Config) : GoPath :=
  c.DataDir ++ [DefaultKeyfile]

/-- `Config.CertFile`: the full path of the certificate file. -/
def Config.CertFile (c : Config) : GoPath :=
  c.DataDir ++ [DefaultCertFile]

/-- Logrus log levels. -/
inductive Level where
  | PanicLevel : Level
  | FatalLevel : Level
  | ErrorLevel : Level
  | WarnLevel : Level
  | InfoLevel : Level
  | DebugLevel : Level
deriving DecidableEq

/-- `config.LogLevel`: parse a string into a logrus level, defaulting to
debug. -/
def LogLevel (l : String) : Level :=
  match l with
  | "debug" => Level.DebugLevel
  | "info" => Level.InfoLevel
  | "warn" => Level.WarnLevel
  | "error" => Level.ErrorLevel
  | "fatal" => Level.FatalLevel
  | "panic" => Level.PanicLevel
  | _ => Level.DebugLevel

/-! ### Store initialization (`Kdag.initStore`)

The store-initialization code is not in the excerpt (only `TestInitStore`
is), so it is modelled from the spec: when a persistent store is opened over
a pre-existing database, the existing directory is renamed with a timestamped
suffix and a fresh database is created, unless bootstrap mode is requested,
in which case the existing database is opened in place. -/

/-- `strings.Contains`: substring containment as a boolean. -/
def goContains (s sub : String) : Bool :=
  decide (sub.data <:+: s.data)

/-- The name of the database directory inside the data directory: the last
component of the configured database path. -/
def dbDirName (c : Config) : String :=
  c.DatabaseDir.getLastD DefaultBadgerFile

/-- Modelled from the spec: `initStore` acting on the listing of the data
directory. With persistent storage enabled, a pre-existing database directory
is renamed to `<name>_<timestamp>` and a fresh one is created, unless
bootstrap mode is requested, in which case the listing is untouched. -/
def initStore (c : Config) (timestamp : String) (entries : List String) : List String :=
  if c.Store then
    if dbDirName c ∈ entries then
      if c.Bootstrap then entries
      else
        (entries.map fun e =>
          if e = dbDirName c then dbDirName c ++ "_" ++ timestamp else e)
          ++ [dbDirName c]
    else entries ++ [dbDirName c]
  else entries

/-! ### Node state machine (package `node`)

The node implementation is not in the excerpt (only `TestMaintenanceMode`
is), so the state machine is modelled from the spec (§4.7): Babbling is
normal operation where heartbeat ticks trigger sync and event creation;
Suspended performs no sync and no event creation and is exited only via
explicit resume. -/

/-- The inputs driving the node controller. -/
inductive NodeInput where
  | heartbeat : NodeInput
  | suspendTrigger : NodeInput
  | resume : NodeInput
  | shutdownSignal : NodeInput
deriving DecidableEq

/-- Observable actions of a controller step. -/
inductive NodeAction where
  | syncRequest : NodeAction
  | createEvent : NodeAction
deriving DecidableEq

/-- Modelled from the spec: one step of the node state machine, returning the
next state and the actions performed. In Babbling, a heartbeat triggers an
outbound sync and the creation of a new self-event; exceeding the suspend
limit moves to Suspended; Suspended ignores everything except an explicit
resume and emits no actions; Shutdown is terminal. -/
def nodeStep (s : NodeState) (i : NodeInput) : NodeState × List NodeAction :=
  match s, i with
  | NodeState.Suspended, NodeInput.resume => (NodeState.Babbling, [])
  | NodeState.Suspended, _ => (NodeState.Suspended, [])
  | NodeState.Babbling, NodeInput.heartbeat =>
      (NodeState.Babbling, [NodeAction.syncRequest, NodeAction.createEvent])
  | NodeState.Babbling, NodeInput.suspendTrigger => (NodeState.Suspended, [])
  | NodeState.Babbling, NodeInput.shutdownSignal => (NodeState.Shutdown, [])
  | NodeState.Babbling, NodeInput.resume => (NodeState.Babbling, [])
  | NodeState.Shutdown, _ => (NodeState.Shutdown, [])
  | _, NodeInput.shutdownSignal => (NodeState.Shutdown, [])
  | s, _ => (s, [])

/-- Run the node state machine over a list of inputs, collecting the emitted
actions. -/
def nodeRun (s : NodeState) : List NodeInput → NodeState × List NodeAction
  | [] => (s, [])
  | i :: is =>
      let p := nodeStep s i
      let q := nodeRun p.1 is
      (q.1, p.2 ++ q.2)

/-- Modelled from the spec: the initial state after `Init` — Babbling unless
MaintenanceMode is set at startup (Suspended) or the store is empty with no
bootstrap peer-set (Joining). -/
def initialState (c : Config) (storeEmpty : Bool) : NodeState :=
  if c.MaintenanceMode then NodeState.Suspended
  else if storeEmpty then NodeState.Joining
  else NodeState.Babbling

/-- Modelled from the spec: flag normalization at node initialization —
MaintenanceMode forces Bootstrap, and Bootstrap forces Store (the enforcement
code is not in the excerpt; the `Config` field documentation records it). -/
def normalizeFlags (c : Config) : Config :=
  let c1 := if c.MaintenanceMode then { c with Bootstrap := true } else c
  if c1.Bootstrap then { c1 with Store := true } else c1

/-! ### Test fixtures -/

/-- A concrete OS environment for witnesses: HOME set, linux. -/
def testEnv : OSEnv :=
  { homeEnv := ["home", "user"], userHomeDir := none, goos := GOOS.linux }

/-- A default configuration with MaintenanceMode switched on, as in
`TestMaintenanceMode`. -/
def testMaintConfig : Config :=
  { NewDefaultConfig testEnv with MaintenanceMode := true }

/-- A default configuration pointed at `test_data` with persistent storage and
no bootstrap, as in `TestInitStore`. -/
def testStoreConfig : Config :=
  { (NewDefaultConfig testEnv).SetDataDir testEnv ["test_data"] with
      Store := true
      Bootstrap := false }

/-! ### Helper lemmas -/

/-- A string contains any of its prefixes as a substring. -/
theorem goContains_prefix (s r : String) (h : s.data <+: r.data) :
    goContains r s = true := by
  simp only [goContains, decide_eq_true_eq]
  exact h.isInfix

/-- Every string contains itself. -/
theorem goContains_refl (s : String) : goContains s s = true := by
  simp only [goContains, decide_eq_true_eq]
  exact List.infix_rfl

/-- Left-fold accumulation of appended segments is the flattening of the
mapped list. -/
theorem foldl_append_eq_flatten (g : α → List β) (l : List α) (acc : List β) :
    l.foldl (fun a x => a ++ g x) acc = acc ++ (l.map g).flatten := by
  induction l generalizing acc with
  | nil => simp
  | cons x xs ih => simp [List.foldl_cons, ih, List.append_assoc]

/-- Stepping the suspended state on anything but an explicit resume stays
suspended and emits no action. -/
theorem nodeStep_suspended (i : NodeInput) (hi : i ≠ NodeInput.resume) :
    nodeStep NodeState.Suspended i = (NodeState.Suspended, []) := by
  cases i
  case resume => exact absurd rfl hi
  all_goals rfl

/-- A run from the suspended state over resume-free inputs stays suspended
and emits no action. -/
theorem nodeRun_suspended (inputs : List NodeInput) (hr : NodeInput.resume ∉ inputs) :
    nodeRun NodeState.Suspended inputs = (NodeState.Suspended, []) := by
  induction inputs with
  | nil => rfl
  | cons i is ih =>
      have hi : i ≠ NodeInput.resume := by
        intro h
        exact hr (h ▸ List.mem_cons_self i is)
      have hrest : NodeInput.resume ∉ is := fun hmem => hr (List.mem_cons_of_mem i hmem)
      simp [nodeRun, nodeStep_suspended i hi, ih hrest]

/-! ### The claims -/

/-- Claim C7: `Keyfile` returns `<DataDir>/priv_key`, and after `SetDataDir d`
on a configuration whose database directory holds the default value, the
database directory equals `<d>/badger_db`. -/
theorem layout_keyfile_and_database_dir (env : OSEnv) (c : Config) (d : GoPath)
    (h : c.DatabaseDir = DefaultDatabaseDir env) :
    c.Keyfile = c.DataDir ++ [DefaultKeyfile] ∧
    (c.SetDataDir env d).DatabaseDir = d ++ [DefaultBadgerFile] := by
  refine ⟨rfl, ?_⟩
  simp [Config.SetDataDir, h]

/-- Witness for C7 at the default configuration and data directory
`test_data`. -/
theorem layout_keyfile_and_database_dir_witness :
    (NewDefaultConfig testEnv).Keyfile
        = (NewDefaultConfig testEnv).DataDir ++ [DefaultKeyfile] ∧
    ((NewDefaultConfig testEnv).SetDataDir testEnv ["test_data"]).DatabaseDir
        = ["test_data"] ++ [DefaultBadgerFile] :=
  layout_keyfile_and_database_dir testEnv (NewDefaultConfig testEnv) ["test_data"] rfl

/-- Claim C9: `SetDataDir` sets `DataDir`, leaves `DatabaseDir` unchanged
whenever it is not the default value, and leaves every other field of the
configuration unchanged in all cases. -/
theorem setDataDir_frame (env : OSEnv) (c : Config) (d : GoPath) :
    (c.SetDataDir env d).DataDir = d ∧
    (c.DatabaseDir ≠ DefaultDatabaseDir env →
      (c.SetDataDir env d).DatabaseDir = c.DatabaseDir) ∧
    (c.SetDataDir env d).LogLevel = c.LogLevel ∧
    (c.SetDataDir env d).BindAddr = c.BindAddr ∧
    (c.SetDataDir env d).AdvertiseAddr = c.AdvertiseAddr ∧
    (c.SetDataDir env d).NoService = c.NoService ∧
    (c.SetDataDir env d).ServiceAddr = c.ServiceAddr ∧
    (c.SetDataDir env d).HeartbeatTimeout = c.HeartbeatTimeout ∧
    (c.SetDataDir env d).SlowHeartbeatTimeout = c.SlowHeartbeatTimeout ∧
    (c.SetDataDir env d).MaxPool = c.MaxPool ∧
    (c.SetDataDir env d).TCPTimeout = c.TCPTimeout ∧
    (c.SetDataDir env d).JoinTimeout = c.JoinTimeout ∧
    (c.SetDataDir env d).SyncLimit = c.SyncLimit ∧
    (c.SetDataDir env d).EnableFastSync = c.EnableFastSync ∧
    (c.SetDataDir env d).Store = c.Store ∧
    (c.SetDataDir env d).CacheSize = c.CacheSize ∧
    (c.SetDataDir env d).Bootstrap = c.Bootstrap ∧
    (c.SetDataDir env d).MaintenanceMode = c.MaintenanceMode ∧
    (c.SetDataDir env d).SuspendLimit = c.SuspendLimit ∧
    (c.SetDataDir env d).Moniker = c.Moniker ∧
    (c.SetDataDir env d).WebRTC = c.WebRTC ∧
    (c.SetDataDir env d).SignalAddr = c.SignalAddr ∧
    (c.SetDataDir env d).SignalRealm = c.SignalRealm ∧
    (c.SetDataDir env d).SignalSkipVerify = c.SignalSkipVerify ∧
    (c.SetDataDir env d).ICEServers = c.ICEServers ∧
    (c.SetDataDir env d).Proxy = c.Proxy ∧
    (c.SetDataDir env d).Key = c.Key ∧
    (c.SetDataDir env d).logger = c.logger := by
  by_cases h : c.DatabaseDir = DefaultDatabaseDir env <;>
    simp [Config.SetDataDir, h]

/-- Witness for C9 at a configuration whose database directory was set
explicitly. -/
theorem setDataDir_frame_witness :
    ({ NewDefaultConfig testEnv with DatabaseDir := ["elsewhere"] }.SetDataDir
        testEnv ["test_data"]).DataDir = ["test_data"] ∧
    ({ NewDefaultConfig testEnv with DatabaseDir := ["elsewhere"] }.SetDataDir
        testEnv ["test_data"]).DatabaseDir = ["elsewhere"] ∧
    ({ NewDefaultConfig testEnv with DatabaseDir := ["elsewhere"] }.SetDataDir
        testEnv ["test_data"]).Moniker = "" := by
  obtain ⟨h1, h2, -, -, -, -, -, -, -, -, -, -, -, -, -, -, -, -, -, hM, -⟩ :=
    setDataDir_frame testEnv
      { NewDefaultConfig testEnv with DatabaseDir := ["elsewhere"] } ["test_data"]
  exact ⟨h1, h2 (by decide), hM⟩

/-- Claim C10: `LogLevel` is total — each of the six recognized names maps to
its logrus level and every other string maps to the debug level. -/
theorem logLevel_total (s : String)
    (h : s ∉ ["debug", "info", "warn", "error", "fatal", "panic"]) :
    LogLevel "debug" = Level.DebugLevel ∧
    LogLevel "info" = Level.InfoLevel ∧
    LogLevel "warn" = Level.WarnLevel ∧
    LogLevel "error" = Level.ErrorLevel ∧
    LogLevel "fatal" = Level.FatalLevel ∧
    LogLevel "panic" = Level.PanicLevel ∧
    LogLevel s = Level.DebugLevel := by
  refine ⟨rfl, rfl, rfl, rfl, rfl, rfl, ?_⟩
  simp only [List.mem_cons, List.not_mem_nil, or_false, not_or] at h
  unfold LogLevel
  split <;> simp_all

/-- Witness for C10 at the unrecognized name `verbose`. -/
theorem logLevel_total_witness :
    LogLevel "debug" = Level.DebugLevel ∧
    LogLevel "info" = Level.InfoLevel ∧
    LogLevel "warn" = Level.WarnLevel ∧
    LogLevel "error" = Level.ErrorLevel ∧
    LogLevel "fatal" = Level.FatalLevel ∧
    LogLevel "panic" = Level.PanicLevel ∧
    LogLevel "verbose" = Level.DebugLevel :=
  logLevel_total "verbose" (by decide)

/-- Claim C6: the application gateway is exactly the five-operation capability
set — any gateway is fully determined by its submit channel, CommitBlock,
GetSnapshot, Restore and OnStateChanged, and a commit response carries exactly
the state-hash and the internal-transaction receipts. -/
theorem appGateway_capability_set (g : AppGateway) (r : CommitResponse) :
    g = AppGateway.mk g.SubmitCh g.CommitBlock g.GetSnapshot g.Restore g.OnStateChanged ∧
    r = CommitResponse.mk r.StateHash r.InternalTransactionReceipts :=
  ⟨rfl, rfl⟩

/-- Claim C5: at node initialization, MaintenanceMode forces Bootstrap and
Bootstrap forces Store; in bootstrap mode the existing database is opened in
place rather than renamed. -/
theorem maintenance_forces_bootstrap_forces_store (c : Config)
    (h : c.MaintenanceMode = true) :
    (normalizeFlags c).Bootstrap = true ∧
    (normalizeFlags c).Store = true ∧
    (∀ c2 : Config, c2.Bootstrap = true → (normalizeFlags c2).Store = true) ∧
    (∀ ts entries, dbDirName (normalizeFlags c) ∈ entries →
      initStore (normalizeFlags c) ts entries = entries) := by
  refine ⟨?_, ?_, ?_, ?_⟩
  · simp [normalizeFlags, h]
  · simp [normalizeFlags, h]
  · intro c2 h2
    by_cases hm : c2.MaintenanceMode = true <;> simp [normalizeFlags, hm, h2]
  · intro ts entries hmem
    have hb : (normalizeFlags c).Bootstrap = true := by simp [normalizeFlags, h]
    have hs : (normalizeFlags c).Store = true := by simp [normalizeFlags, h]
    simp [initStore, hs, hb, hmem]

/-- Witness for C5 at a maintenance-mode configuration over a data directory
already holding a database. -/
theorem maintenance_forces_bootstrap_forces_store_witness :
    (normalizeFlags testMaintConfig).Bootstrap = true ∧
    (normalizeFlags testMaintConfig).Store = true ∧
    initStore (normalizeFlags testMaintConfig) "1610000000"
        ["badger_db", "peers.json"] = ["badger_db", "peers.json"] := by
  have h := maintenance_forces_bootstrap_forces_store testMaintConfig rfl
  exact ⟨h.1, h.2.1, h.2.2.2 "1610000000" ["badger_db", "peers.json"] (by decide)⟩

/-- Claim C8: generated validator keys are ECDSA on secp256k1; a peer's
identity is the hex encoding of the public key, and a message signed with the
private key verifies against that public key. -/
theorem generated_keys_secp256k1 (rand h : Nat) :
    ∃ k : PrivateKey, GenerateECDSAKey rand = Except.ok k ∧
      k.curve = Curve.secp256k1 ∧
      PublicKeyHex (PublicKeyOf k) = natToHex (PublicKeyOf k).point ∧
      verifyHash (PublicKeyOf k) h (signHash k h) = true := by
  refine ⟨_, rfl, rfl, rfl, ?_⟩
  simp [verifyHash, signHash, PublicKeyOf]

/-- Claim C3: signing a block succeeds and verifies, and a signature attached
with `SetSignature` is recovered by `GetSignature` at the hex public key and
still verifies for the block. -/
theorem block_signature_roundtrip (b : Block) (k : PrivateKey) :
    ∃ bs b2 bs2,
      b.Sign k = Except.ok bs ∧
      b.Verify bs = Except.ok true ∧
      b.SetSignature bs = Except.ok b2 ∧
      b2.GetSignature (PublicKeyHex (PublicKeyOf k)) = Except.ok bs2 ∧
      b.Verify bs2 = Except.ok true := by
  have hver : b.Verify
      { Validator := PublicKeyOf k, Index := b.Body.Index,
        Sig := signHash k (hashOfBody b.Body) } = Except.ok true := by
    simp [Block.Verify, verifyHash, signHash, PublicKeyOf]
  refine ⟨_, _, _, rfl, hver, rfl, ?_, hver⟩
  simp [Block.GetSignature, Block.SetSignature, BlockSignature.ValidatorHex,
    List.find?_cons]

/-- Claim C4: `NewBlockFromFrame i f` succeeds with a block whose index is
`i`, whose round-received is `f.Round`, and whose transaction and
internal-transaction lists are the flattenings, in frame-event order, of the
frame events' lists. -/
theorem newBlockFromFrame_spec (i : Nat) (f : Frame) :
    ∃ b : Block, NewBlockFromFrame i f = Except.ok b ∧
      b.Body.Index = i ∧
      b.Body.RoundReceived = f.Round ∧
      b.Body.Transactions
        = (f.Events.map fun fe => fe.Core.Body.Transactions).flatten ∧
      b.Body.InternalTransactions
        = (f.Events.map fun fe => fe.Core.Body.InternalTransactions).flatten := by
  refine ⟨_, rfl, rfl, rfl, ?_, ?_⟩
  · show frameTransactions f.Events = _
    simpa [frameTransactions] using
      foldl_append_eq_flatten (fun fe : FrameEvent => fe.Core.Body.Transactions) f.Events []
  · show frameInternalTransactions f.Events = _
    simpa [frameInternalTransactions] using
      foldl_append_eq_flatten
        (fun fe : FrameEvent => fe.Core.Body.InternalTransactions) f.Events []

/-- Claim C2: with MaintenanceMode set, the node initializes in the Suspended
state, and a run over any resume-free inputs stays Suspended, issues no
outbound sync request and creates no event. -/
theorem maintenance_mode_suspended (c : Config) (storeEmpty : Bool)
    (inputs : List NodeInput)
    (hm : c.MaintenanceMode = true) (hr : NodeInput.resume ∉ inputs) :
    initialState c storeEmpty = NodeState.Suspended ∧
    (nodeRun (initialState c storeEmpty) inputs).1 = NodeState.Suspended ∧
    (nodeRun (initialState c storeEmpty) inputs).2 = [] := by
  have h0 : initialState c storeEmpty = NodeState.Suspended := by
    simp [initialState, hm]
  refine ⟨h0, ?_, ?_⟩
  · rw [h0, nodeRun_suspended inputs hr]
  · rw [h0, nodeRun_suspended inputs hr]

/-- Witness for C2: ten heartbeat periods after startup in maintenance mode,
no action has been emitted. -/
theorem maintenance_mode_suspended_witness :
    initialState testMaintConfig false = NodeState.Suspended ∧
    (nodeRun (initialState testMaintConfig false)
        (List.replicate 10 NodeInput.heartbeat)).2 = [] := by
  obtain ⟨h1, -, h3⟩ := maintenance_mode_suspended testMaintConfig false
    (List.replicate 10 NodeInput.heartbeat) rfl (by decide)
  exact ⟨h1, h3⟩

/-- Claim C1: with Store enabled and Bootstrap disabled, initializing the
store over a data directory that already holds a `badger_db` database leaves
exactly two entries whose names contain `badger_db`: the renamed original and
the fresh database. -/
theorem initStore_backup_count (c : Config) (ts : String) (entries : List String)
    (hs : c.Store = true) (hb : c.Bootstrap = false)
    (hname : dbDirName c = DefaultBadgerFile)
    (hmem : DefaultBadgerFile ∈ entries)
    (hcount : (entries.countP fun e => goContains e DefaultBadgerFile) = 1) :
    ((initStore c ts entries).countP fun e => goContains e DefaultBadgerFile) = 2 := by
  have hmem2 : dbDirName c ∈ entries := hname ▸ hmem
  rw [initStore, if_pos hs, if_pos hmem2, if_neg (by simp [hb]), List.countP_append,
    List.countP_map]
  have hren : goContains (dbDirName c ++ "_" ++ ts) DefaultBadgerFile = true := by
    apply goContains_prefix
    rw [hname]
    simp only [String.data_append, List.append_assoc]
    exact List.prefix_append _ _
  have hself : goContains (dbDirName c) DefaultBadgerFile = true := by
    rw [hname]
    exact goContains_refl _
  have hpoint :
      (entries.countP
        ((fun e => goContains e DefaultBadgerFile) ∘
          fun e => if e = dbDirName c then dbDirName c ++ "_" ++ ts else e))
        = entries.countP fun e => goContains e DefaultBadgerFile := by
    apply List.countP_congr
    intro e _
    by_cases he : e = dbDirName c
    · subst he
      simp [hren, hself]
    · simp [he]
  rw [hpoint, hcount, List.countP_singleton, if_pos hself]

/-- Witness for C1: initializing the store twice over `test_data`, as in
`TestInitStore`, leaves exactly two `badger_db` entries. -/
theorem initStore_backup_count_witness :
    ((initStore testStoreConfig "1610000000" ["badger_db", "peers.json"]).countP
      fun e => goContains e DefaultBadgerFile) = 2 :=
  initStore_backup_count testStoreConfig "1610000000" ["badger_db", "peers.json"]
    rfl rfl (by decide) (by decide) (by decide)

end Kdag
